import Mathlib

/-!
Shallow embedding of flight_physics.py (Flight Physics Engine) over the real
numbers, together with theorems settling the specification claims.

Python floats are idealised as real numbers. The Python function math.sqrt
raises ValueError on a negative argument; it is modelled by msqrt, which
returns none exactly in that case, and functions whose body calls math.sqrt
therefore return Option values, with none meaning "the call raises".
math.inf (returned by calculate_turn_radius at near-zero bank) is modelled
by the top element of EReal.
-/

noncomputable section

open Real

/-- Constant AIR_DENSITY from flight_physics.py (kg/m^3). -/
def AIR_DENSITY : ℝ := 1.225

/-- Constant GRAVITY from flight_physics.py (m/s^2). -/
def GRAVITY : ℝ := 9.81

/-- Constant WING_AREA from flight_physics.py (m^2). -/
def WING_AREA : ℝ := 30.0

/-- Constant AIRCRAFT_MASS from flight_physics.py (kg). -/
def AIRCRAFT_MASS : ℝ := 5000.0

/-- Constant LIFT_COEFFICIENT_ZERO from flight_physics.py. -/
def LIFT_COEFFICIENT_ZERO : ℝ := 0.25

/-- Constant LIFT_COEFFICIENT_ALPHA from flight_physics.py (per degree). -/
def LIFT_COEFFICIENT_ALPHA : ℝ := 0.10

/-- Constant LIFT_COEFFICIENT_MAX from flight_physics.py. -/
def LIFT_COEFFICIENT_MAX : ℝ := 1.6

/-- Constant DRAG_COEFFICIENT_ZERO from flight_physics.py. -/
def DRAG_COEFFICIENT_ZERO : ℝ := 0.02

/-- Constant INDUCED_DRAG_FACTOR from flight_physics.py. -/
def INDUCED_DRAG_FACTOR : ℝ := 0.045

/-- Constant MAX_THRUST from flight_physics.py (N). -/
def MAX_THRUST : ℝ := 20000.0

/-- Python math.radians: degrees to radians. -/
def radians (deg : ℝ) : ℝ := deg * (Real.pi / 180)

/-- Python math.sqrt: raises ValueError (modelled as none) on a negative
argument, otherwise returns the nonnegative square root. -/
def msqrt (x : ℝ) : Option ℝ := if x < 0 then none else some (Real.sqrt x)

/-- calculate_lift_coefficient from flight_physics.py: linear model plus
flap effect. -/
def calculate_lift_coefficient (angle_of_attack_deg flap_angle_deg : ℝ) : ℝ :=
  LIFT_COEFFICIENT_ZERO
    + LIFT_COEFFICIENT_ALPHA * angle_of_attack_deg
    + 0.01 * flap_angle_deg

/-- calculate_lift from flight_physics.py: lift force in newtons. -/
def calculate_lift (velocity_mps lift_coefficient : ℝ) : ℝ :=
  0.5 * AIR_DENSITY * velocity_mps ^ 2 * WING_AREA * lift_coefficient

/-- calculate_drag_coefficient from flight_physics.py: parasitic plus
induced drag. -/
def calculate_drag_coefficient (lift_coefficient : ℝ) : ℝ :=
  DRAG_COEFFICIENT_ZERO + INDUCED_DRAG_FACTOR * lift_coefficient ^ 2

/-- calculate_drag from flight_physics.py: drag force in newtons. -/
def calculate_drag (velocity_mps drag_coefficient : ℝ) : ℝ :=
  0.5 * AIR_DENSITY * velocity_mps ^ 2 * WING_AREA * drag_coefficient

/-- calculate_weight from flight_physics.py: aircraft weight in newtons. -/
def calculate_weight : ℝ := AIRCRAFT_MASS * GRAVITY

/-- calculate_stall_speed_for_clean_configuration from flight_physics.py:
theoretical stall speed for the clean (no-flap) configuration. Calls
math.sqrt, hence Option valued; the argument is a positive constant, so in
fact it never raises. -/
def calculate_stall_speed_for_clean_configuration : Option ℝ :=
  msqrt (2 * calculate_weight / (AIR_DENSITY * WING_AREA * LIFT_COEFFICIENT_MAX))

/-- calculate_turn_radius from flight_physics.py: turn radius in meters,
math.inf (the top element of EReal) when the bank is near zero. -/
def calculate_turn_radius (velocity_mps bank_angle_deg : ℝ) : EReal :=
  if |bank_angle_deg| < 1e-6 then ⊤
  else ((velocity_mps ^ 2 / (GRAVITY * Real.tan (radians bank_angle_deg)) : ℝ) : EReal)

/-- calculate_load_factor from flight_physics.py: n = 1 / cos(phi). -/
def calculate_load_factor (bank_angle_deg : ℝ) : ℝ :=
  1 / Real.cos (radians bank_angle_deg)

/-- Result record of takeoff_algorithm (the returned dict). -/
structure TakeoffResult where
  algorithm : String
  status : String
  lift_newtons : ℝ
  weight_newtons : ℝ
  lift_coefficient : ℝ

/-- takeoff_algorithm from flight_physics.py. -/
def takeoff_algorithm (velocity_mps altitude_m angle_of_attack_deg flap_angle_deg : ℝ) :
    TakeoffResult :=
  let lift_coefficient := calculate_lift_coefficient angle_of_attack_deg flap_angle_deg
  let lift_force := calculate_lift velocity_mps lift_coefficient
  let weight_newtons := calculate_weight
  let status :=
    if altitude_m > 0.1 ∧ lift_force ≥ weight_newtons then "AIRBORNE"
    else if lift_force ≥ weight_newtons ∧ altitude_m ≤ 0.1 then "TAKEOFF READY (ROTATE)"
    else "ROLLING"
  { algorithm := "TAKEOFF ALGORITHM"
    status := status
    lift_newtons := lift_force
    weight_newtons := weight_newtons
    lift_coefficient := lift_coefficient }

/-- Result record of landing_algorithm (the returned dict). -/
structure LandingResult where
  algorithm : String
  status : String
  drag_newtons : ℝ
  thrust_newtons : ℝ

/-- landing_algorithm from flight_physics.py. -/
def landing_algorithm (velocity_mps altitude_m thrust_newtons angle_of_attack_deg
    flap_angle_deg : ℝ) : LandingResult :=
  let lift_coefficient := calculate_lift_coefficient angle_of_attack_deg flap_angle_deg
  let drag_coefficient := calculate_drag_coefficient lift_coefficient
  let drag_force := calculate_drag velocity_mps drag_coefficient
  let approach_condition := altitude_m < 200 ∧ velocity_mps < 55
  let final_condition := altitude_m ≤ 10 ∧ velocity_mps ≤ 16.7
  let touchdown_condition := final_condition ∧ drag_force ≥ thrust_newtons
  let status :=
    if touchdown_condition then "TOUCHDOWN"
    else if final_condition then "FINAL"
    else if approach_condition then "APPROACH"
    else "NOT LANDING"
  { algorithm := "LANDING ALGORITHM"
    status := status
    drag_newtons := drag_force
    thrust_newtons := thrust_newtons }

/-- Result record of stall_algorithm (the returned dict). -/
structure StallResult where
  algorithm : String
  stall : Bool
  stall_speed_clean_mps : ℝ
  stall_speed_with_flaps_mps : ℝ
  stall_speed_in_turn_mps : ℝ
  angle_of_attack_deg : ℝ

/-- stall_algorithm from flight_physics.py. The three math.sqrt calls can
raise ValueError (modelled by none propagating through Option.bind). -/
def stall_algorithm (velocity_mps angle_of_attack_deg bank_angle_deg flap_angle_deg : ℝ) :
    Option StallResult :=
  calculate_stall_speed_for_clean_configuration.bind fun base_stall_speed =>
    let flap_cl_adjustment := 0.01 * flap_angle_deg
    let effective_cl_max := LIFT_COEFFICIENT_MAX + flap_cl_adjustment
    let weight_newtons := calculate_weight
    (msqrt (2 * weight_newtons / (AIR_DENSITY * WING_AREA * effective_cl_max))).bind
      fun stall_speed_with_flaps =>
        let load_factor := calculate_load_factor bank_angle_deg
        (msqrt load_factor).bind fun sqrt_load_factor =>
          let stall_speed_in_turn := stall_speed_with_flaps * sqrt_load_factor
          let stall_by_aoa := decide (angle_of_attack_deg ≥ 15)
          let stall_by_speed := decide (velocity_mps ≤ stall_speed_in_turn)
          some { algorithm := "STALL ALGORITHM"
                 stall := stall_by_aoa || stall_by_speed
                 stall_speed_clean_mps := base_stall_speed
                 stall_speed_with_flaps_mps := stall_speed_with_flaps
                 stall_speed_in_turn_mps := stall_speed_in_turn
                 angle_of_attack_deg := angle_of_attack_deg }

/-- Result record of inflight_algorithm (the returned dict). -/
structure InflightResult where
  algorithm : String
  mode : String
  lift_newtons : ℝ
  weight_newtons : ℝ

/-- inflight_algorithm from flight_physics.py. The thrust_newtons argument
is accepted but unused, as in the source. -/
def inflight_algorithm (velocity_mps altitude_m angle_of_attack_deg flap_angle_deg
    target_altitude_m thrust_newtons : ℝ) : InflightResult :=
  let lift_coefficient := calculate_lift_coefficient angle_of_attack_deg flap_angle_deg
  let lift_force := calculate_lift velocity_mps lift_coefficient
  let weight_newtons := calculate_weight
  let mode :=
    if lift_force < weight_newtons ∧ altitude_m < target_altitude_m - 5 then "CLIMB"
    else if lift_force > weight_newtons ∧ altitude_m > target_altitude_m + 5 then "DESCEND"
    else "CRUISE"
  { algorithm := "IN-FLIGHT ALGORITHM"
    mode := mode
    lift_newtons := lift_force
    weight_newtons := weight_newtons }

/-- Result record of turn_algorithm (the returned dict). -/
structure TurnResult where
  algorithm : String
  turn_radius_m : EReal
  load_factor : ℝ

/-- turn_algorithm from flight_physics.py. The load factor special-cases
near-zero bank to exactly 1.0. -/
def turn_algorithm (velocity_mps bank_angle_deg : ℝ) : TurnResult :=
  let radius := calculate_turn_radius velocity_mps bank_angle_deg
  let load_factor :=
    if |bank_angle_deg| > 1e-6 then calculate_load_factor bank_angle_deg else 1
  { algorithm := "TURN ALGORITHM"
    turn_radius_m := radius
    load_factor := load_factor }

/-- Result record of altitude_hold_algorithm (the returned dict). -/
structure AltitudeHoldResult where
  algorithm : String
  command : String
  commanded_climb_rate_mps : ℝ
  altitude_error_m : ℝ

/-- altitude_hold_algorithm from flight_physics.py. The proportional gain
defaults to 0.4 at Python call sites; here it is an explicit argument. -/
def altitude_hold_algorithm (altitude_m target_altitude_m proportional_gain : ℝ) :
    AltitudeHoldResult :=
  let error_m := target_altitude_m - altitude_m
  let commanded_climb_rate_mps := max (-10) (min 10 (proportional_gain * error_m))
  let command :=
    if |error_m| ≤ 2 then "HOLD"
    else if commanded_climb_rate_mps > 0 then "CLIMB"
    else "DESCEND"
  { algorithm := "ALTITUDE HOLD ALGORITHM"
    command := command
    commanded_climb_rate_mps := commanded_climb_rate_mps
    altitude_error_m := error_m }

/-- C8: the output of inflight_algorithm does not depend on its thrust
argument: for any two thrust values and identical remaining inputs, the
returned records (mode, lift, weight) are identical. -/
theorem inflight_algorithm_ignores_thrust
    (velocity_mps altitude_m angle_of_attack_deg flap_angle_deg target_altitude_m
      thrust1 thrust2 : ℝ) :
    inflight_algorithm velocity_mps altitude_m angle_of_attack_deg flap_angle_deg
        target_altitude_m thrust1
      = inflight_algorithm velocity_mps altitude_m angle_of_attack_deg flap_angle_deg
        target_altitude_m thrust2 := rfl

/-- C9: lift and drag forces are even in velocity, and are nonnegative for a
nonnegative coefficient, so a negative airspeed produces the same forces as
its magnitude rather than a negative force. -/
theorem lift_drag_even_in_velocity (v c : ℝ) :
    calculate_lift (-v) c = calculate_lift v c ∧
    calculate_drag (-v) c = calculate_drag v c ∧
    (0 ≤ c → 0 ≤ calculate_lift v c) ∧
    (0 ≤ c → 0 ≤ calculate_drag v c) := by
  refine ⟨by unfold calculate_lift; ring, by unfold calculate_drag; ring,
    fun hc => ?_, fun hc => ?_⟩
  · unfold calculate_lift AIR_DENSITY WING_AREA
    nlinarith [sq_nonneg v, mul_nonneg (sq_nonneg v) hc]
  · unfold calculate_drag AIR_DENSITY WING_AREA
    nlinarith [sq_nonneg v, mul_nonneg (sq_nonneg v) hc]

/-- C9 witness: the nonnegativity conjuncts at the concrete input v = 5,
c = 2. -/
theorem lift_drag_even_in_velocity_witness :
    (0 ≤ (2 : ℝ)) ∧ 0 ≤ calculate_lift 5 2 ∧ 0 ≤ calculate_drag 5 2 :=
  ⟨by norm_num, (lift_drag_even_in_velocity 5 2).2.2.1 (by norm_num),
    (lift_drag_even_in_velocity 5 2).2.2.2 (by norm_num)⟩

/-- C3: altitude_hold_algorithm commands HOLD exactly when the altitude
error is within 2 m; otherwise CLIMB exactly when the commanded climb rate
is positive and DESCEND otherwise; and the commanded climb rate is the gain
times the error, clamped to the interval from -10 to 10. -/
theorem altitude_hold_algorithm_spec (altitude_m target_altitude_m proportional_gain : ℝ) :
    ((altitude_hold_algorithm altitude_m target_altitude_m proportional_gain).command = "HOLD"
      ↔ |target_altitude_m - altitude_m| ≤ 2) ∧
    (¬ |target_altitude_m - altitude_m| ≤ 2 →
      (((altitude_hold_algorithm altitude_m target_altitude_m proportional_gain).command
            = "CLIMB"
          ↔ 0 < (altitude_hold_algorithm altitude_m target_altitude_m
              proportional_gain).commanded_climb_rate_mps) ∧
        ((altitude_hold_algorithm altitude_m target_altitude_m proportional_gain).command
            = "DESCEND"
          ↔ ¬ 0 < (altitude_hold_algorithm altitude_m target_altitude_m
              proportional_gain).commanded_climb_rate_mps))) ∧
    (altitude_hold_algorithm altitude_m target_altitude_m
        proportional_gain).commanded_climb_rate_mps
      = max (-10) (min 10 (proportional_gain * (target_altitude_m - altitude_m))) := by
  unfold altitude_hold_algorithm
  norm_num
  split_ifs with h1 h2 <;> simp_all

/-- C3 witness: at altitude 0, target 100, gain 0.4 the error is outside
the deadband and the CLIMB and DESCEND characterisations apply. -/
theorem altitude_hold_algorithm_spec_witness :
    ¬ |(100 : ℝ) - 0| ≤ 2 ∧
    ((altitude_hold_algorithm 0 100 0.4).command = "CLIMB"
      ↔ 0 < (altitude_hold_algorithm 0 100 0.4).commanded_climb_rate_mps) :=
  ⟨by norm_num, ((altitude_hold_algorithm_spec 0 100 0.4).2.1 (by norm_num)).1⟩

/-- C6: takeoff_algorithm returns AIRBORNE exactly when altitude is above
0.1 and lift at least weight, TAKEOFF READY (ROTATE) exactly when lift is at
least weight at altitude at most 0.1, and ROLLING exactly when lift is below
weight; in particular v = 70, altitude = 0, aoa = 2, flap = 0 gives ROLLING. -/
theorem takeoff_algorithm_spec (velocity_mps altitude_m angle_of_attack_deg
    flap_angle_deg : ℝ) :
    ((takeoff_algorithm velocity_mps altitude_m angle_of_attack_deg flap_angle_deg).status
        = "AIRBORNE"
      ↔ (0.1 < altitude_m ∧ calculate_weight ≤ calculate_lift velocity_mps
          (calculate_lift_coefficient angle_of_attack_deg flap_angle_deg))) ∧
    ((takeoff_algorithm velocity_mps altitude_m angle_of_attack_deg flap_angle_deg).status
        = "TAKEOFF READY (ROTATE)"
      ↔ (calculate_weight ≤ calculate_lift velocity_mps
          (calculate_lift_coefficient angle_of_attack_deg flap_angle_deg)
          ∧ altitude_m ≤ 0.1)) ∧
    ((takeoff_algorithm velocity_mps altitude_m angle_of_attack_deg flap_angle_deg).status
        = "ROLLING"
      ↔ ¬ calculate_weight ≤ calculate_lift velocity_mps
          (calculate_lift_coefficient angle_of_attack_deg flap_angle_deg)) ∧
    (takeoff_algorithm 70 0 2 0).status = "ROLLING" := by
  refine ⟨?_, ?_, ?_, ?_⟩
  · simp only [takeoff_algorithm]
    split_ifs with h1 h2 <;> simp_all
  · simp only [takeoff_algorithm]
    split_ifs with h1 h2 <;> simp_all
  · simp only [takeoff_algorithm]
    split_ifs with h1 h2 <;> simp_all
    by_contra hc
    push_neg at hc
    exact absurd (h1 (h2 hc)) (not_lt.mpr hc)
  · norm_num [takeoff_algorithm, calculate_lift, calculate_lift_coefficient,
      calculate_weight, AIR_DENSITY, WING_AREA, AIRCRAFT_MASS, GRAVITY,
      LIFT_COEFFICIENT_ZERO, LIFT_COEFFICIENT_ALPHA]

/-- C5: landing_algorithm returns TOUCHDOWN exactly on the final zone with
drag at least thrust, FINAL exactly on the final zone with drag below
thrust, APPROACH exactly on the approach zone outside the final zone, and
NOT LANDING otherwise; in particular altitude = 5, v = 15, thrust = 0,
aoa = 2, flap = 10 gives TOUCHDOWN. -/
theorem landing_algorithm_spec (velocity_mps altitude_m thrust_newtons angle_of_attack_deg
    flap_angle_deg : ℝ) :
    ((landing_algorithm velocity_mps altitude_m thrust_newtons angle_of_attack_deg
        flap_angle_deg).status = "TOUCHDOWN"
      ↔ (altitude_m ≤ 10 ∧ velocity_mps ≤ 16.7 ∧ thrust_newtons ≤ calculate_drag velocity_mps
          (calculate_drag_coefficient
            (calculate_lift_coefficient angle_of_attack_deg flap_angle_deg)))) ∧
    ((landing_algorithm velocity_mps altitude_m thrust_newtons angle_of_attack_deg
        flap_angle_deg).status = "FINAL"
      ↔ (altitude_m ≤ 10 ∧ velocity_mps ≤ 16.7 ∧ ¬ thrust_newtons ≤ calculate_drag velocity_mps
          (calculate_drag_coefficient
            (calculate_lift_coefficient angle_of_attack_deg flap_angle_deg)))) ∧
    ((landing_algorithm velocity_mps altitude_m thrust_newtons angle_of_attack_deg
        flap_angle_deg).status = "APPROACH"
      ↔ ((altitude_m < 200 ∧ velocity_mps < 55)
          ∧ ¬ (altitude_m ≤ 10 ∧ velocity_mps ≤ 16.7))) ∧
    ((landing_algorithm velocity_mps altitude_m thrust_newtons angle_of_attack_deg
        flap_angle_deg).status = "NOT LANDING"
      ↔ (¬ (altitude_m < 200 ∧ velocity_mps < 55)
          ∧ ¬ (altitude_m ≤ 10 ∧ velocity_mps ≤ 16.7))) ∧
    (landing_algorithm 15 5 0 2 10).status = "TOUCHDOWN" := by
  refine ⟨?_, ?_, ?_, ?_, ?_⟩
  · simp only [landing_algorithm]
    split_ifs with h1 h2 h3 <;> simp_all
  · simp only [landing_algorithm]
    split_ifs with h1 h2 h3 <;> simp_all
  · simp only [landing_algorithm]
    split_ifs with h1 h2 h3 <;> simp_all
  · simp only [landing_algorithm]
    split_ifs with h1 h2 h3 <;> simp_all
  · norm_num [landing_algorithm, calculate_drag, calculate_drag_coefficient,
      calculate_lift_coefficient, AIR_DENSITY, WING_AREA, DRAG_COEFFICIENT_ZERO,
      INDUCED_DRAG_FACTOR, LIFT_COEFFICIENT_ZERO, LIFT_COEFFICIENT_ALPHA]

/-- C10: the final zone of landing_algorithm is contained in the approach
zone, NOT LANDING is returned exactly when altitude is at least 200 or
velocity at least 55, and FINAL or TOUCHDOWN only occur at inputs that also
satisfy the approach condition. -/
theorem landing_zones_nested (velocity_mps altitude_m thrust_newtons angle_of_attack_deg
    flap_angle_deg : ℝ) :
    ((altitude_m ≤ 10 ∧ velocity_mps ≤ 16.7) → (altitude_m < 200 ∧ velocity_mps < 55)) ∧
    ((landing_algorithm velocity_mps altitude_m thrust_newtons angle_of_attack_deg
        flap_angle_deg).status = "NOT LANDING"
      ↔ (200 ≤ altitude_m ∨ 55 ≤ velocity_mps)) ∧
    (((landing_algorithm velocity_mps altitude_m thrust_newtons angle_of_attack_deg
          flap_angle_deg).status = "FINAL"
        ∨ (landing_algorithm velocity_mps altitude_m thrust_newtons angle_of_attack_deg
          flap_angle_deg).status = "TOUCHDOWN")
      → (altitude_m < 200 ∧ velocity_mps < 55)) := by
  refine ⟨fun h => ⟨by linarith [h.1], by linarith [h.2]⟩, ?_, ?_⟩
  · simp only [landing_algorithm]
    split_ifs with h1 h2 h3 <;> simp_all
    · exact ⟨by linarith [h1.1.1], by linarith [h1.1.2]⟩
    · exact ⟨by linarith [h2.1], by linarith [h2.2]⟩
    · rcases le_or_lt 200 altitude_m with h | h
      · exact Or.inl h
      · exact Or.inr (h3 h)
  · simp only [landing_algorithm]
    split_ifs with h1 h2 h3 <;> simp_all
    · exact ⟨by linarith [h1.1.1], by linarith [h1.1.2]⟩
    · exact ⟨by linarith [h2.1], by linarith [h2.2]⟩

/-- C10 witness: at velocity 10, altitude 5, thrust 0 the final zone holds,
the status is TOUCHDOWN, and the approach bounds follow from the theorem. -/
theorem landing_zones_nested_witness :
    (((5 : ℝ) ≤ 10 ∧ (10 : ℝ) ≤ 16.7) ∧ ((5 : ℝ) < 200 ∧ (10 : ℝ) < 55)) ∧
    ((landing_algorithm 10 5 0 2 0).status = "TOUCHDOWN" ∧
      ((5 : ℝ) < 200 ∧ (10 : ℝ) < 55)) := by
  have htd : (landing_algorithm 10 5 0 2 0).status = "TOUCHDOWN" := by
    norm_num [landing_algorithm, calculate_drag, calculate_drag_coefficient,
      calculate_lift_coefficient, AIR_DENSITY, WING_AREA, DRAG_COEFFICIENT_ZERO,
      INDUCED_DRAG_FACTOR, LIFT_COEFFICIENT_ZERO, LIFT_COEFFICIENT_ALPHA]
  exact ⟨⟨by norm_num, (landing_zones_nested 10 5 0 2 0).1 (by norm_num)⟩,
    ⟨htd, (landing_zones_nested 10 5 0 2 0).2.2 (Or.inr htd)⟩⟩

/-- C7: turn_algorithm returns turn radius infinity exactly when the bank
magnitude is below 1e-6 and otherwise the signed formula v^2 / (g tan(bank)),
and returns load factor exactly 1 when the bank magnitude is at most 1e-6
and 1 / cos(bank) otherwise. -/
theorem turn_algorithm_spec (velocity_mps bank_angle_deg : ℝ) :
    (|bank_angle_deg| < 1e-6 →
      (turn_algorithm velocity_mps bank_angle_deg).turn_radius_m = ⊤) ∧
    (¬ |bank_angle_deg| < 1e-6 →
      (turn_algorithm velocity_mps bank_angle_deg).turn_radius_m
        = ((velocity_mps ^ 2 / (GRAVITY * Real.tan (radians bank_angle_deg)) : ℝ) : EReal)) ∧
    (|bank_angle_deg| ≤ 1e-6 →
      (turn_algorithm velocity_mps bank_angle_deg).load_factor = 1) ∧
    (1e-6 < |bank_angle_deg| →
      (turn_algorithm velocity_mps bank_angle_deg).load_factor
        = 1 / Real.cos (radians bank_angle_deg)) := by
  refine ⟨fun h => ?_, fun h => ?_, fun h => ?_, fun h => ?_⟩ <;>
    simp only [turn_algorithm, calculate_turn_radius, calculate_load_factor]
  · rw [if_pos h]
  · rw [if_neg h]
  · rw [if_neg (not_lt.mpr h)]
  · rw [if_pos h]

/-- C7 witness: at bank 0 the radius is infinite and the load factor is
exactly 1; at bank 45 both general formulas apply. -/
theorem turn_algorithm_spec_witness :
    (|(0 : ℝ)| < 1e-6 ∧ (turn_algorithm 3 0).turn_radius_m = ⊤) ∧
    (|(0 : ℝ)| ≤ 1e-6 ∧ (turn_algorithm 3 0).load_factor = 1) ∧
    (¬ |(45 : ℝ)| < 1e-6 ∧ (turn_algorithm 3 45).turn_radius_m
      = ((3 ^ 2 / (GRAVITY * Real.tan (radians 45)) : ℝ) : EReal)) ∧
    (1e-6 < |(45 : ℝ)| ∧ (turn_algorithm 3 45).load_factor = 1 / Real.cos (radians 45)) :=
  ⟨⟨by norm_num, (turn_algorithm_spec 3 0).1 (by norm_num)⟩,
    ⟨by norm_num, (turn_algorithm_spec 3 0).2.2.1 (by norm_num)⟩,
    ⟨by norm_num, (turn_algorithm_spec 3 45).2.1 (by norm_num)⟩,
    ⟨by norm_num, (turn_algorithm_spec 3 45).2.2.2 (by norm_num)⟩⟩

/-- C2 counterexample: at velocity 0, with angles of attack 0 and 1 inside
the claimed range, both lift forces are 0, so the lift force at the larger
angle is not strictly greater. -/
theorem lift_force_not_strict_at_zero_velocity :
    (-5 ≤ (0 : ℝ)) ∧ ((0 : ℝ) < 1) ∧ ((1 : ℝ) ≤ 15) ∧
    ¬ calculate_lift 0 (calculate_lift_coefficient 0 0)
        < calculate_lift 0 (calculate_lift_coefficient 1 0) := by
  norm_num [calculate_lift, calculate_lift_coefficient, AIR_DENSITY, WING_AREA,
    LIFT_COEFFICIENT_ZERO, LIFT_COEFFICIENT_ALPHA]

/-- C2 amended: for angles of attack a1 < a2 in the range -5 to 15, the lift
coefficient strictly increases, and for nonzero velocity the lift force
strictly increases as well. -/
theorem lift_monotone_in_aoa (a1 a2 flap_angle_deg velocity_mps : ℝ)
    (h1 : -5 ≤ a1) (h2 : a1 < a2) (h3 : a2 ≤ 15) (hv : velocity_mps ≠ 0) :
    calculate_lift_coefficient a1 flap_angle_deg
        < calculate_lift_coefficient a2 flap_angle_deg ∧
    calculate_lift velocity_mps (calculate_lift_coefficient a1 flap_angle_deg)
        < calculate_lift velocity_mps (calculate_lift_coefficient a2 flap_angle_deg) := by
  have hcl : calculate_lift_coefficient a1 flap_angle_deg
      < calculate_lift_coefficient a2 flap_angle_deg := by
    unfold calculate_lift_coefficient LIFT_COEFFICIENT_ALPHA
    linarith
  refine ⟨hcl, ?_⟩
  unfold calculate_lift AIR_DENSITY WING_AREA
  have hv2 : 0 < velocity_mps ^ 2 := by positivity
  nlinarith [mul_pos hv2 (sub_pos.mpr hcl)]

/-- C2 witness: the amended monotonicity at a1 = 0, a2 = 1, flap 0 and
velocity 10. -/
theorem lift_monotone_in_aoa_witness :
    (-5 ≤ (0 : ℝ)) ∧ ((0 : ℝ) < 1) ∧ ((1 : ℝ) ≤ 15) ∧ ((10 : ℝ) ≠ 0) ∧
    (calculate_lift_coefficient 0 0 < calculate_lift_coefficient 1 0 ∧
      calculate_lift 10 (calculate_lift_coefficient 0 0)
        < calculate_lift 10 (calculate_lift_coefficient 1 0)) :=
  ⟨by norm_num, by norm_num, by norm_num, by norm_num,
    lift_monotone_in_aoa 0 1 0 10 (by norm_num) (by norm_num) (by norm_num) (by norm_num)⟩

/-- C4: on every input where stall_algorithm is defined (the flapped stall
speed argument and the load factor are nonnegative, so no math.sqrt call
raises), the returned stall flag is true exactly when the angle of attack is
at least 15 degrees or the velocity is at most the turn-adjusted stall speed
sqrt(2 weight / (rho S (CLmax + 0.01 flap))) * sqrt(load factor); in
particular an angle of attack of at least 15 forces the flag regardless of
velocity. -/
theorem stall_algorithm_flag_iff (velocity_mps angle_of_attack_deg bank_angle_deg
    flap_angle_deg : ℝ)
    (hfl : 0 ≤ 2 * calculate_weight
      / (AIR_DENSITY * WING_AREA * (LIFT_COEFFICIENT_MAX + 0.01 * flap_angle_deg)))
    (hlf : 0 ≤ calculate_load_factor bank_angle_deg) :
    ((stall_algorithm velocity_mps angle_of_attack_deg bank_angle_deg
        flap_angle_deg).map StallResult.stall = some true
      ↔ (15 ≤ angle_of_attack_deg
          ∨ velocity_mps ≤ Real.sqrt (2 * calculate_weight
              / (AIR_DENSITY * WING_AREA * (LIFT_COEFFICIENT_MAX + 0.01 * flap_angle_deg)))
            * Real.sqrt (calculate_load_factor bank_angle_deg))) ∧
    (15 ≤ angle_of_attack_deg →
      (stall_algorithm velocity_mps angle_of_attack_deg bank_angle_deg
        flap_angle_deg).map StallResult.stall = some true) := by
  have hclean : ¬ (2 * calculate_weight
      / (AIR_DENSITY * WING_AREA * LIFT_COEFFICIENT_MAX) < 0) := by
    norm_num [calculate_weight, AIR_DENSITY, WING_AREA, AIRCRAFT_MASS, GRAVITY,
      LIFT_COEFFICIENT_MAX]
  simp only [stall_algorithm, calculate_stall_speed_for_clean_configuration, msqrt,
    if_neg hclean, if_neg (not_lt.mpr hfl), if_neg (not_lt.mpr hlf),
    Option.some_bind, Option.map_some', Option.some.injEq, Bool.or_eq_true,
    decide_eq_true_eq, ge_iff_le]
  exact ⟨trivial, fun h => Or.inl h⟩

/-- C4 witness: at velocity 100, angle of attack 20, bank 0, flap 0 both
definedness hypotheses hold and the flag is forced by the angle of attack. -/
theorem stall_algorithm_flag_iff_witness :
    (0 ≤ 2 * calculate_weight
      / (AIR_DENSITY * WING_AREA * (LIFT_COEFFICIENT_MAX + 0.01 * 0))) ∧
    (0 ≤ calculate_load_factor 0) ∧
    ((stall_algorithm 100 20 0 0).map StallResult.stall = some true
      ↔ (15 ≤ (20 : ℝ)
          ∨ (100 : ℝ) ≤ Real.sqrt (2 * calculate_weight
              / (AIR_DENSITY * WING_AREA * (LIFT_COEFFICIENT_MAX + 0.01 * 0)))
            * Real.sqrt (calculate_load_factor 0))) ∧
    (stall_algorithm 100 20 0 0).map StallResult.stall = some true := by
  have hfl : 0 ≤ 2 * calculate_weight
      / (AIR_DENSITY * WING_AREA * (LIFT_COEFFICIENT_MAX + 0.01 * 0)) := by
    norm_num [calculate_weight, AIR_DENSITY, WING_AREA, AIRCRAFT_MASS, GRAVITY,
      LIFT_COEFFICIENT_MAX]
  have hlf : 0 ≤ calculate_load_factor 0 := by
    norm_num [calculate_load_factor, radians]
  exact ⟨hfl, hlf, (stall_algorithm_flag_iff 100 20 0 0 hfl hlf).1,
    (stall_algorithm_flag_iff 100 20 0 0 hfl hlf).2 (by norm_num)⟩

/-- C1 counterexample: at bank 180 degrees the load factor is -1 and
stall_algorithm raises ValueError from math.sqrt (modelled as returning
none) instead of returning a record of non-finite stall speeds, refuting
the never-raises claim at this concrete input. -/
theorem stall_algorithm_raises_at_bank_180 :
    stall_algorithm 50 5 180 0 = none := by
  have hlf : calculate_load_factor 180 = -1 := by
    unfold calculate_load_factor radians
    rw [show (180 : ℝ) * (Real.pi / 180) = Real.pi by ring, Real.cos_pi]
    norm_num
  simp only [stall_algorithm, calculate_stall_speed_for_clean_configuration, msqrt, hlf]
  norm_num [calculate_weight, AIR_DENSITY, WING_AREA, AIRCRAFT_MASS, GRAVITY,
    LIFT_COEFFICIENT_MAX]

/-- C1 amended: whenever the flapped stall speed argument is nonnegative,
stall_algorithm raises (returns none) exactly when the load factor is
negative, as happens for bank strictly between 90 and 270 degrees; on such
inputs math.sqrt raises ValueError rather than propagating a non-finite
value, and on all other inputs a value is returned. -/
theorem stall_algorithm_none_iff_negative_load_factor
    (velocity_mps angle_of_attack_deg bank_angle_deg flap_angle_deg : ℝ)
    (hfl : 0 ≤ 2 * calculate_weight
      / (AIR_DENSITY * WING_AREA * (LIFT_COEFFICIENT_MAX + 0.01 * flap_angle_deg))) :
    stall_algorithm velocity_mps angle_of_attack_deg bank_angle_deg flap_angle_deg = none
      ↔ calculate_load_factor bank_angle_deg < 0 := by
  have hclean : ¬ (2 * calculate_weight
      / (AIR_DENSITY * WING_AREA * LIFT_COEFFICIENT_MAX) < 0) := by
    norm_num [calculate_weight, AIR_DENSITY, WING_AREA, AIRCRAFT_MASS, GRAVITY,
      LIFT_COEFFICIENT_MAX]
  by_cases hlf : calculate_load_factor bank_angle_deg < 0
  · simp only [stall_algorithm, calculate_stall_speed_for_clean_configuration, msqrt,
      if_neg hclean, if_neg (not_lt.mpr hfl), if_pos hlf, Option.some_bind,
      Option.none_bind]
    exact iff_of_true trivial hlf
  · simp only [stall_algorithm, calculate_stall_speed_for_clean_configuration, msqrt,
      if_neg hclean, if_neg (not_lt.mpr hfl), if_neg hlf, Option.some_bind]
    exact iff_of_false (by simp) hlf

/-- C1 witness: at velocity 50, angle of attack 5, bank 180, flap 0 the
domain hypothesis holds and the raise-condition equivalence applies. -/
theorem stall_algorithm_none_iff_negative_load_factor_witness :
    (0 ≤ 2 * calculate_weight
      / (AIR_DENSITY * WING_AREA * (LIFT_COEFFICIENT_MAX + 0.01 * 0))) ∧
    (stall_algorithm 50 5 180 0 = none ↔ calculate_load_factor 180 < 0) := by
  have hfl : 0 ≤ 2 * calculate_weight
      / (AIR_DENSITY * WING_AREA * (LIFT_COEFFICIENT_MAX + 0.01 * 0)) := by
    norm_num [calculate_weight, AIR_DENSITY, WING_AREA, AIRCRAFT_MASS, GRAVITY,
      LIFT_COEFFICIENT_MAX]
  exact ⟨hfl, stall_algorithm_none_iff_negative_load_factor 50 5 180 0 hfl⟩

end
